import Mathlib

/-!
Shallow embedding of the vitals-to-alert derivation and analytics pipeline of
the Patient Monitoring App server (`POST /vitals`, the analytics endpoints and
`PUT /alerts/:alertId/acknowledge`), as given in src/TECHNICAL_GUIDE.md.

Modelling conventions:
- JS numbers are modelled as `ℚ` (all thresholds are exact decimals).
- An optional request/stored field is `Option ℚ`; JS truthiness of such a
  field ("absent, null or 0 is falsy") is the `truthy` predicate.
- Timestamps are epoch milliseconds (`ℤ`); `new Date(x) >= cutoff` becomes
  integer comparison.
- The `bloodPressure` field is a "S/D" string in the source; since the server
  code never inspects its contents, it is modelled as the parsed pair
  `Option (ℚ × ℚ)` (the empty string, falsy in JS, corresponds to `none`).
- For the acknowledge path, JS objects are modelled as association lists of
  field name/value pairs (`JObj`) so that object spread on an arbitrary stored
  entity can be expressed, and the key-value store as `String → Option JObj`.
-/

namespace PatientMonitoring

inductive Severity
  | warning
  | critical
deriving DecidableEq

inductive AlertType
  | heartRate
  | oxygenLevel
  | temperature
  | bloodPressure
deriving DecidableEq

/-- An alert draft as pushed onto the `alerts` array in `POST /vitals`
(lines 733-758): `{ type, severity, value, message }`. -/
structure AlertDraft where
  type : AlertType
  severity : Severity
  value : ℚ
  message : String
deriving DecidableEq

/-- The vitals request body fields destructured in `POST /vitals` (line 706). -/
structure VitalsBody where
  heartRate : Option ℚ := none
  bloodPressure : Option (ℚ × ℚ) := none
  oxygenLevel : Option ℚ := none
  temperature : Option ℚ := none
  notes : Option String := none
deriving DecidableEq

/-- JS truthiness of an optional numeric field: absent/null and 0 are falsy. -/
def truthy : Option ℚ → Bool
  | none => false
  | some v => v != 0

/-- Heart-rate check of `POST /vitals` (lines 733-740):
`if (heartRate && (heartRate < 60 || heartRate > 100))` pushes one alert with
severity `heartRate < 40 || heartRate > 120 ? 'critical' : 'warning'`. -/
def hrAlerts : Option ℚ → List AlertDraft
  | none => []
  | some hr =>
    if hr ≠ 0 ∧ (hr < 60 ∨ 100 < hr) then
      [{ type := AlertType.heartRate
         severity := if hr < 40 ∨ 120 < hr then Severity.critical else Severity.warning
         value := hr
         message := "Heart rate " ++ (if hr < 60 then "below" else "above") ++ " normal range" }]
    else []

/-- Oxygen-level check of `POST /vitals` (lines 742-749):
`if (oxygenLevel && oxygenLevel < 95)` pushes one alert with severity
`oxygenLevel < 90 ? 'critical' : 'warning'`. -/
def o2Alerts : Option ℚ → List AlertDraft
  | none => []
  | some o2 =>
    if o2 ≠ 0 ∧ o2 < 95 then
      [{ type := AlertType.oxygenLevel
         severity := if o2 < 90 then Severity.critical else Severity.warning
         value := o2
         message := "Oxygen saturation below normal (" ++ toString o2 ++ "%)" }]
    else []

/-- Temperature check of `POST /vitals` (lines 751-758):
`if (temperature && (temperature < 36.1 || temperature > 37.2))` pushes one
alert with severity `temperature < 35 || temperature > 38.5 ? 'critical' : 'warning'`. -/
def tempAlerts : Option ℚ → List AlertDraft
  | none => []
  | some t =>
    if t ≠ 0 ∧ (t < 36.1 ∨ 37.2 < t) then
      [{ type := AlertType.temperature
         severity := if t < 35 ∨ 38.5 < t then Severity.critical else Severity.warning
         value := t
         message := "Body temperature " ++ (if t < 36.1 then "below" else "above") ++ " normal range" }]
    else []

/-- The full alert-derivation block of `POST /vitals` (lines 730-758): the
`alerts` array after the three independent checks, in push order.
There is no blood-pressure check in this block. -/
def classify (b : VitalsBody) : List AlertDraft :=
  hrAlerts b.heartRate ++ o2Alerts b.oxygenLevel ++ tempAlerts b.temperature

/-- Number of alerts of a given type in a draft list. -/
def countType (l : List AlertDraft) (t : AlertType) : ℕ :=
  (l.filter (fun a => a.type == t)).length

/-- Guard of the heart-rate check, as a Boolean on the optional field. -/
def hrViolated : Option ℚ → Bool
  | none => false
  | some v => decide (v ≠ 0 ∧ (v < 60 ∨ 100 < v))

/-- Guard of the oxygen-level check, as a Boolean on the optional field. -/
def o2Violated : Option ℚ → Bool
  | none => false
  | some v => decide (v ≠ 0 ∧ v < 95)

/-- Guard of the temperature check, as a Boolean on the optional field. -/
def tempViolated : Option ℚ → Bool
  | none => false
  | some v => decide (v ≠ 0 ∧ (v < 36.1 ∨ 37.2 < v))

/-- A stored vital reading (`vitalReading`, lines 715-725). -/
structure Reading where
  id : String
  patientId : String
  heartRate : Option ℚ
  bloodPressure : Option (ℚ × ℚ)
  oxygenLevel : Option ℚ
  temperature : Option ℚ
  notes : String
  timestamp : ℤ
  recordedBy : String
deriving DecidableEq

/-- `x || null` on an optional numeric field: a falsy value (absent or 0)
is stored as null. -/
def orNull (x : Option ℚ) : Option ℚ :=
  if truthy x then x else none

/-- Construction of the stored `vitalReading` object from the request body
(lines 715-725): each numeric field goes through `field || null`,
`notes || ''` defaults to the empty string. -/
def mkVitalReading (id patientId : String) (b : VitalsBody) (timestamp : ℤ)
    (recordedBy : String) : Reading :=
  { id := id
    patientId := patientId
    heartRate := orNull b.heartRate
    bloodPressure := b.bloodPressure
    oxygenLevel := orNull b.oxygenLevel
    temperature := orNull b.temperature
    notes := b.notes.getD ""
    timestamp := timestamp
    recordedBy := recordedBy }

/-- A stored alert record as used by the analytics endpoints (only the fields
those endpoints read). -/
structure AlertRec where
  patientId : String
  type : AlertType
  severity : Severity
  value : ℚ
  timestamp : ℤ
  acknowledged : Bool
deriving DecidableEq

/-- `hrNormal` inside the `normalReadings` filter (line 996):
`!v.heartRate || (v.heartRate >= 60 && v.heartRate <= 100)`; an absent or
zero (falsy) field passes the first disjunct. -/
def hrNormal (v : Reading) : Bool :=
  match v.heartRate with
  | none => true
  | some hr => if hr = 0 then true else decide (60 ≤ hr ∧ hr ≤ 100)

/-- `o2Normal` inside the `normalReadings` filter (line 997):
`!v.oxygenLevel || v.oxygenLevel >= 95`. -/
def o2Normal (v : Reading) : Bool :=
  match v.oxygenLevel with
  | none => true
  | some o2 => if o2 = 0 then true else decide (95 ≤ o2)

/-- `tempNormal` inside the `normalReadings` filter (line 998):
`!v.temperature || (v.temperature >= 36.1 && v.temperature <= 37.2)`. -/
def tempNormal (v : Reading) : Bool :=
  match v.temperature with
  | none => true
  | some t => if t = 0 then true else decide (36.1 ≤ t ∧ t ≤ 37.2)

/-- The predicate of the `normalReadings` filter (lines 995-1000):
`hrNormal && o2Normal && tempNormal`. Blood pressure is not examined. -/
def isNormalReading (v : Reading) : Bool :=
  hrNormal v && o2Normal v && tempNormal v

/-- `stats.normalReadings` (lines 995-1000). -/
def normalReadings (vitals : List Reading) : ℕ :=
  (vitals.filter isNormalReading).length

/-- `stats.totalReadings` (line 994 and line 1053): `vitals.length`. -/
def totalReadings (vitals : List Reading) : ℕ :=
  vitals.length

/-- `Math.round`: round half toward positive infinity. -/
def jsRound (q : ℚ) : ℤ :=
  ⌊q + 1 / 2⌋

/-- `vitals.filter(v => v.heartRate)` (line 1057): the readings whose
heart-rate field is truthy. -/
def hrTruthyReadings (vitals : List Reading) : List Reading :=
  vitals.filter (fun v => truthy v.heartRate)

/-- `vitals.filter(v => v.oxygenLevel)` (line 1060). -/
def o2TruthyReadings (vitals : List Reading) : List Reading :=
  vitals.filter (fun v => truthy v.oxygenLevel)

/-- `stats.avgHeartRate` (lines 1057-1059): `Math.round` of the sum over the
truthy-filtered readings divided by their count, 0 when none. -/
def avgHeartRate (vitals : List Reading) : ℤ :=
  let present := hrTruthyReadings vitals
  if 0 < present.length then
    jsRound ((present.map (fun v => v.heartRate.getD 0)).sum / (present.length : ℚ))
  else 0

/-- `stats.avgOxygenLevel` (lines 1060-1062). -/
def avgOxygenLevel (vitals : List Reading) : ℤ :=
  let present := o2TruthyReadings vitals
  if 0 < present.length then
    jsRound ((present.map (fun v => v.oxygenLevel.getD 0)).sum / (present.length : ℚ))
  else 0

/-- The `switch (period)` cutoff computation of the analytics endpoints
(lines 967-982 and 1030-1045). `cutoffDate` starts as `new Date()` (= `now`)
and is mutated only by a matching case. The `7days`/`30days` cases shift by an
exact number of days (`setDate`); the calendar-dependent results of
`setMonth(now.getMonth() - 3)` and `setFullYear(now.getFullYear() - 1)` are
passed in as the parameters `sub3months` and `sub1year`. An unrecognized
period matches no case, leaving the cutoff at `now`. -/
def cutoffDate (now sub3months sub1year : ℤ) (period : String) : ℤ :=
  if period = "7days" then now - 7 * 86400000
  else if period = "30days" then now - 30 * 86400000
  else if period = "3months" then sub3months
  else if period = "1year" then sub1year
  else now

/-- `allVitals.filter(v => new Date(v.timestamp) >= cutoffDate)`
(lines 984-985 and 1047). -/
def filterVitals (cutoff : ℤ) (vitals : List Reading) : List Reading :=
  vitals.filter (fun v => decide (cutoff ≤ v.timestamp))

/-- `allAlerts.filter(a => new Date(a.timestamp) >= cutoffDate)`
(lines 988-989 and 1048). -/
def filterAlertRecs (cutoff : ℤ) (alerts : List AlertRec) : List AlertRec :=
  alerts.filter (fun a => decide (cutoff ≤ a.timestamp))

/-- `stats.criticalAlerts` (lines 1002 and 1055). -/
def criticalAlerts (alerts : List AlertRec) : ℕ :=
  (alerts.filter (fun a => a.severity == Severity.critical)).length

/-- `stats.warningAlerts` (lines 1003 and 1056). -/
def warningAlerts (alerts : List AlertRec) : ℕ :=
  (alerts.filter (fun a => a.severity == Severity.warning)).length

/-- A dynamic JS value, for the acknowledge path where stored entities of any
shape flow through object spread. -/
inductive JVal
  | str (s : String)
  | num (q : ℚ)
  | boolean (b : Bool)
  | null
deriving DecidableEq

/-- A JS object as an association list of field name/value pairs. -/
abbrev JObj := List (String × JVal)

/-- Field lookup on a JS object. -/
def getField (o : JObj) (k : String) : Option JVal :=
  (o.find? (fun p => p.1 == k)).map (fun p => p.2)

/-- Field update, as performed by object spread `{ ...o, k: v }`: the value at
`k` is replaced, all other fields are kept. -/
def setField (o : JObj) (k : String) (v : JVal) : JObj :=
  o.filter (fun p => p.1 != k) ++ [(k, v)]

/-- The key-value store: keys are opaque strings, values are stored objects.
`kv.get` on a missing key yields `none`. -/
abbrev Store := String → Option JObj

/-- `kv.set(key, value)`: full overwrite at an exact key. -/
def kvSet (s : Store) (k : String) (v : JObj) : Store :=
  fun k2 => if k2 = k then some v else s k2

/-- The `updatedAlert` object spread of the acknowledge handler (lines 845-850):
`{ ...alert, acknowledged: true, acknowledgedBy: actorId, acknowledgedAt: nowIso }`. -/
def withAck (alert : JObj) (actorId nowIso : String) : JObj :=
  setField (setField (setField alert "acknowledged" (JVal.boolean true))
      "acknowledgedBy" (JVal.str actorId))
    "acknowledgedAt" (JVal.str nowIso)

/-- `PUT /alerts/:alertId/acknowledge` (lines 838-855): fetch the raw
`alertId` key, return 404 `Alert not found` when absent (the guard `if (!alert)`
tests only whether the key resolves — stored values are always objects, hence
truthy), otherwise write back and return the spread-updated object. -/
def acknowledge (s : Store) (alertId actorId nowIso : String) :
    Except String (JObj × Store) :=
  match s alertId with
  | none => Except.error "Alert not found"
  | some alert =>
    let updated := withAck alert actorId nowIso
    Except.ok (updated, kvSet s alertId updated)

/-- Spec band for heart rate: 60-100 bpm. -/
def specHRInBand (hr : ℚ) : Bool :=
  decide (60 ≤ hr ∧ hr ≤ 100)

/-- Spec band for oxygen level: at least 95 percent. -/
def specO2InBand (o2 : ℚ) : Bool :=
  decide (95 ≤ o2)

/-- Spec band for temperature: 36.1-37.2 degrees Celsius. -/
def specTempInBand (t : ℚ) : Bool :=
  decide (36.1 ≤ t ∧ t ≤ 37.2)

/-- Spec band for blood pressure: 90-120 systolic and 60-80 diastolic. -/
def specBPInBand (bp : ℚ × ℚ) : Bool :=
  decide (90 ≤ bp.1 ∧ bp.1 ≤ 120 ∧ 60 ≤ bp.2 ∧ bp.2 ≤ 80)

/-- Normality of a reading as worded by the spec for `normalReadings`: every
present vital field — heart rate, oxygen level, temperature AND blood
pressure — lies within its normal band; an absent field counts as normal. -/
def specIsNormal (v : Reading) : Bool :=
  v.heartRate.all specHRInBand && v.oxygenLevel.all specO2InBand &&
    v.temperature.all specTempInBand && v.bloodPressure.all specBPInBand

/-- `normalReadings` as worded by the spec (blood pressure included). -/
def specNormalReadings (vitals : List Reading) : ℕ :=
  (vitals.filter specIsNormal).length

/-- Normality of a reading as the code actually computes it, reworded: every
present heart-rate, oxygen-level or temperature value that is nonzero lies
within its normal band; an absent or zero field counts as normal, and blood
pressure is not considered. -/
def amendedIsNormal (v : Reading) : Bool :=
  (v.heartRate.all fun hr => hr == 0 || specHRInBand hr) &&
    (v.oxygenLevel.all fun o2 => o2 == 0 || specO2InBand o2) &&
    (v.temperature.all fun t => t == 0 || specTempInBand t)

/-- The readings that have a given field present (spec wording: "readings that
have that field present"). -/
def specPresent (f : Reading → Option ℚ) (vitals : List Reading) : List Reading :=
  vitals.filter (fun v => (f v).isSome)

/-- The average as worded by the spec: arithmetic mean over exactly the
readings that have the field present, rounded to the nearest integer, 0 when
no reading has the field. -/
def specAvg (f : Reading → Option ℚ) (vitals : List Reading) : ℤ :=
  let present := specPresent f vitals
  if 0 < present.length then
    jsRound ((present.map (fun v => (f v).getD 0)).sum / (present.length : ℚ))
  else 0

/-- Three concrete stored readings, as produced by ingestion, with heart rates
60, 100 and absent: the worked example of the spec. -/
def exampleReadings : List Reading :=
  [mkVitalReading "v1" "p1" { heartRate := some 60 } 10 "d1",
   mkVitalReading "v2" "p1" { heartRate := some 100 } 20 "d1",
   mkVitalReading "v3" "p1" { oxygenLevel := some 97 } 30 "d1"]

/-- A concrete non-alert entity: a profile object as stored under a
`profile:<id>` key. -/
def profileObj : JObj :=
  [("id", JVal.str "p1"), ("name", JVal.str "Jane Roe"),
   ("email", JVal.str "jane@example.com"), ("role", JVal.str "patient")]

/-- A store holding only that profile. -/
def profileStore : Store :=
  fun k => if k = "profile:p1" then some profileObj else none

/-- A concrete stored reading older than the current instant. -/
def oldReading : Reading :=
  { id := "v0", patientId := "p1", heartRate := none, bloodPressure := none,
    oxygenLevel := none, temperature := none, notes := "", timestamp := 5,
    recordedBy := "d1" }

/-- A concrete stored reading whose only vital is an out-of-range blood
pressure. -/
def bpOnlyReading : Reading :=
  { id := "v9", patientId := "p1", heartRate := none,
    bloodPressure := some (200, 120), oxygenLevel := none, temperature := none,
    notes := "", timestamp := 0, recordedBy := "d1" }

/-- A concrete stored reading whose heart-rate field is the number 0. -/
def zeroHrReading : Reading :=
  { id := "v8", patientId := "p1", heartRate := some 0, bloodPressure := none,
    oxygenLevel := none, temperature := none, notes := "", timestamp := 0,
    recordedBy := "d1" }

/-- A concrete stored reading whose oxygen-level field is the number 0. -/
def zeroO2Reading : Reading :=
  { id := "v7", patientId := "p1", heartRate := none, bloodPressure := none,
    oxygenLevel := some 0, temperature := none, notes := "", timestamp := 0,
    recordedBy := "d1" }

/-- A concrete stored alert object. -/
def alertObj : JObj :=
  [("id", JVal.str "alert:p1:100-Heart Rate"), ("patientId", JVal.str "p1"),
   ("vitalId", JVal.str "vitals:p1:100"), ("value", JVal.num 45),
   ("acknowledged", JVal.boolean false)]

/-- A store holding only that alert. -/
def alertStore : Store :=
  fun k => if k = "alert:p1:100-Heart Rate" then some alertObj else none

/-- A concrete stored reading whose temperature field is the number 0. -/
def zeroTempReading : Reading :=
  { id := "v6", patientId := "p1", heartRate := none, bloodPressure := none,
    oxygenLevel := none, temperature := some 0, notes := "", timestamp := 0,
    recordedBy := "d1" }

/-- A concrete request body with all three numeric vitals critical. -/
def bC6 : VitalsBody :=
  { heartRate := some 130, oxygenLevel := some 85, temperature := some 34 }

/-! Helper lemmas about the alert-derivation block. -/

theorem mem_hrAlerts_type {x : Option ℚ} {a : AlertDraft} (h : a ∈ hrAlerts x) :
    a.type = AlertType.heartRate := by
  cases x with
  | none => simp [hrAlerts] at h
  | some v =>
    simp only [hrAlerts] at h
    split at h
    · simp at h
      subst h
      rfl
    · simp at h

theorem mem_o2Alerts_type {x : Option ℚ} {a : AlertDraft} (h : a ∈ o2Alerts x) :
    a.type = AlertType.oxygenLevel := by
  cases x with
  | none => simp [o2Alerts] at h
  | some v =>
    simp only [o2Alerts] at h
    split at h
    · simp at h
      subst h
      rfl
    · simp at h

theorem mem_tempAlerts_type {x : Option ℚ} {a : AlertDraft} (h : a ∈ tempAlerts x) :
    a.type = AlertType.temperature := by
  cases x with
  | none => simp [tempAlerts] at h
  | some v =>
    simp only [tempAlerts] at h
    split at h
    · simp at h
      subst h
      rfl
    · simp at h

theorem classify_filter_hr (b : VitalsBody) :
    (classify b).filter (fun a => a.type == AlertType.heartRate) =
      hrAlerts b.heartRate := by
  have h1 : (hrAlerts b.heartRate).filter (fun a => a.type == AlertType.heartRate) =
      hrAlerts b.heartRate :=
    List.filter_eq_self.mpr (fun a ha => by simp [mem_hrAlerts_type ha])
  have h2 : (o2Alerts b.oxygenLevel).filter (fun a => a.type == AlertType.heartRate) =
      [] :=
    List.filter_eq_nil_iff.mpr (fun a ha => by simp [mem_o2Alerts_type ha])
  have h3 : (tempAlerts b.temperature).filter (fun a => a.type == AlertType.heartRate) =
      [] :=
    List.filter_eq_nil_iff.mpr (fun a ha => by simp [mem_tempAlerts_type ha])
  simp [classify, List.filter_append, h1, h2, h3]

theorem classify_filter_o2 (b : VitalsBody) :
    (classify b).filter (fun a => a.type == AlertType.oxygenLevel) =
      o2Alerts b.oxygenLevel := by
  have h1 : (hrAlerts b.heartRate).filter (fun a => a.type == AlertType.oxygenLevel) =
      [] :=
    List.filter_eq_nil_iff.mpr (fun a ha => by simp [mem_hrAlerts_type ha])
  have h2 : (o2Alerts b.oxygenLevel).filter (fun a => a.type == AlertType.oxygenLevel) =
      o2Alerts b.oxygenLevel :=
    List.filter_eq_self.mpr (fun a ha => by simp [mem_o2Alerts_type ha])
  have h3 : (tempAlerts b.temperature).filter (fun a => a.type == AlertType.oxygenLevel) =
      [] :=
    List.filter_eq_nil_iff.mpr (fun a ha => by simp [mem_tempAlerts_type ha])
  simp [classify, List.filter_append, h1, h2, h3]

theorem classify_filter_temp (b : VitalsBody) :
    (classify b).filter (fun a => a.type == AlertType.temperature) =
      tempAlerts b.temperature := by
  have h1 : (hrAlerts b.heartRate).filter (fun a => a.type == AlertType.temperature) =
      [] :=
    List.filter_eq_nil_iff.mpr (fun a ha => by simp [mem_hrAlerts_type ha])
  have h2 : (o2Alerts b.oxygenLevel).filter (fun a => a.type == AlertType.temperature) =
      [] :=
    List.filter_eq_nil_iff.mpr (fun a ha => by simp [mem_o2Alerts_type ha])
  have h3 : (tempAlerts b.temperature).filter (fun a => a.type == AlertType.temperature) =
      tempAlerts b.temperature :=
    List.filter_eq_self.mpr (fun a ha => by simp [mem_tempAlerts_type ha])
  simp [classify, List.filter_append, h1, h2, h3]

theorem classify_filter_bp (b : VitalsBody) :
    (classify b).filter (fun a => a.type == AlertType.bloodPressure) = [] := by
  have h1 : (hrAlerts b.heartRate).filter (fun a => a.type == AlertType.bloodPressure) =
      [] :=
    List.filter_eq_nil_iff.mpr (fun a ha => by simp [mem_hrAlerts_type ha])
  have h2 : (o2Alerts b.oxygenLevel).filter (fun a => a.type == AlertType.bloodPressure) =
      [] :=
    List.filter_eq_nil_iff.mpr (fun a ha => by simp [mem_o2Alerts_type ha])
  have h3 : (tempAlerts b.temperature).filter (fun a => a.type == AlertType.bloodPressure) =
      [] :=
    List.filter_eq_nil_iff.mpr (fun a ha => by simp [mem_tempAlerts_type ha])
  simp [classify, List.filter_append, h1, h2, h3]

theorem hrAlerts_length (x : Option ℚ) :
    (hrAlerts x).length = if hrViolated x then 1 else 0 := by
  cases x with
  | none => rfl
  | some v =>
    simp only [hrAlerts, hrViolated]
    by_cases h : v ≠ 0 ∧ (v < 60 ∨ 100 < v)
    · rw [if_pos h, if_pos (decide_eq_true h)]
      rfl
    · rw [if_neg h, if_neg (by simp [h])]
      rfl

theorem o2Alerts_length (x : Option ℚ) :
    (o2Alerts x).length = if o2Violated x then 1 else 0 := by
  cases x with
  | none => rfl
  | some v =>
    simp only [o2Alerts, o2Violated]
    by_cases h : v ≠ 0 ∧ v < 95
    · rw [if_pos h, if_pos (decide_eq_true h)]
      rfl
    · rw [if_neg h, if_neg (by simp [h])]
      rfl

theorem tempAlerts_length (x : Option ℚ) :
    (tempAlerts x).length = if tempViolated x then 1 else 0 := by
  cases x with
  | none => rfl
  | some v =>
    simp only [tempAlerts, tempViolated]
    by_cases h : v ≠ 0 ∧ (v < 36.1 ∨ 37.2 < v)
    · rw [if_pos h, if_pos (decide_eq_true h)]
      rfl
    · rw [if_neg h, if_neg (by simp [h])]
      rfl

/-! Helper lemmas about stored objects and the key-value store. -/

theorem find?_filter_out {o : JObj} {k k2 : String} (h : k2 ≠ k) :
    (o.filter (fun p => p.1 != k)).find? (fun p => p.1 == k2) =
      o.find? (fun p => p.1 == k2) := by
  induction o with
  | nil => rfl
  | cons a o ih =>
    by_cases hak : a.1 = k
    · have h2 : (a.1 == k2) = false := by
        simp [hak]
        exact fun he => h he.symm
      rw [List.filter_cons_of_neg (by simp [hak]), List.find?_cons_of_neg _ (by simp [h2]),
        ih]
    · by_cases h2 : a.1 = k2
      · rw [List.filter_cons_of_pos (by simp [hak]), List.find?_cons_of_pos _ (by simp [h2]),
          List.find?_cons_of_pos _ (by simp [h2])]
      · rw [List.filter_cons_of_pos (by simp [hak]), List.find?_cons_of_neg _ (by simp [h2]),
          List.find?_cons_of_neg _ (by simp [h2]), ih]

theorem getField_setField_self (o : JObj) (k : String) (v : JVal) :
    getField (setField o k v) k = some v := by
  unfold getField setField
  rw [List.find?_append]
  have h1 : (o.filter (fun p => p.1 != k)).find? (fun p => p.1 == k) = none := by
    rw [List.find?_eq_none]
    intro x hx
    have := (List.mem_filter.mp hx).2
    simp at this ⊢
    exact this
  rw [h1]
  simp [List.find?]

theorem getField_setField_ne (o : JObj) {k k2 : String} (v : JVal) (h : k2 ≠ k) :
    getField (setField o k v) k2 = getField o k2 := by
  unfold getField setField
  rw [List.find?_append]
  have hkk : (k == k2) = false := beq_eq_false_iff_ne.mpr (Ne.symm h)
  have h2 : ([(k, v)].find? (fun p => p.1 == k2)) = none := by
    simp [List.find?, hkk]
  rw [h2, find?_filter_out h]
  cases o.find? (fun p => p.1 == k2) <;> rfl

theorem getField_withAck_acknowledged (o : JObj) (actorId nowIso : String) :
    getField (withAck o actorId nowIso) "acknowledged" = some (JVal.boolean true) := by
  unfold withAck
  rw [getField_setField_ne _ _ (by decide), getField_setField_ne _ _ (by decide),
    getField_setField_self]

theorem getField_withAck_by (o : JObj) (actorId nowIso : String) :
    getField (withAck o actorId nowIso) "acknowledgedBy" = some (JVal.str actorId) := by
  unfold withAck
  rw [getField_setField_ne _ _ (by decide), getField_setField_self]

theorem getField_withAck_at (o : JObj) (actorId nowIso : String) :
    getField (withAck o actorId nowIso) "acknowledgedAt" = some (JVal.str nowIso) := by
  unfold withAck
  rw [getField_setField_self]

theorem getField_withAck_other (o : JObj) (actorId nowIso : String) {f : String}
    (h1 : f ≠ "acknowledged") (h2 : f ≠ "acknowledgedBy") (h3 : f ≠ "acknowledgedAt") :
    getField (withAck o actorId nowIso) f = getField o f := by
  unfold withAck
  rw [getField_setField_ne _ _ h3, getField_setField_ne _ _ h2,
    getField_setField_ne _ _ h1]

/-! Helper lemmas about ingestion normalization and the analytics stats. -/

theorem truthy_orNull (x : Option ℚ) : truthy (orNull x) = (orNull x).isSome := by
  cases x with
  | none => rfl
  | some v =>
    by_cases h : v = 0
    · simp [orNull, truthy, h]
    · simp [orNull, truthy, h]

theorem hrNormal_eq_amended (v : Reading) :
    hrNormal v = v.heartRate.all (fun hr => hr == 0 || specHRInBand hr) := by
  unfold hrNormal
  cases v.heartRate with
  | none => rfl
  | some hr =>
    by_cases h : hr = 0
    · simp [h, Option.all]
    · simp [h, Option.all, specHRInBand]

theorem o2Normal_eq_amended (v : Reading) :
    o2Normal v = v.oxygenLevel.all (fun o2 => o2 == 0 || specO2InBand o2) := by
  unfold o2Normal
  cases v.oxygenLevel with
  | none => rfl
  | some o2 =>
    by_cases h : o2 = 0
    · simp [h, Option.all]
    · simp [h, Option.all, specO2InBand]

theorem tempNormal_eq_amended (v : Reading) :
    tempNormal v = v.temperature.all (fun t => t == 0 || specTempInBand t) := by
  unfold tempNormal
  cases v.temperature with
  | none => rfl
  | some t =>
    by_cases h : t = 0
    · simp [h, Option.all]
    · simp [h, Option.all, specTempInBand]

/-! Claim C1. -/

/-- C1, counterexample: a reading with heartRate = 45 creates exactly one
Heart Rate alert, but its severity is warning — no critical-severity alert is
created at all (the code's critical bound is `< 40 || > 120`), contradicting
the claim that the alert has severity critical. -/
theorem C1_hr45_not_critical :
    countType (classify { heartRate := some 45 }) AlertType.heartRate = 1
    ∧ (classify { heartRate := some 45 }).filter
        (fun a => a.severity == Severity.critical) = [] := by
  decide

/-- C1 (amended): for every reading whose heartRate is present and in
[60,100], ingestion creates no Heart Rate alert; for a reading with
heartRate = 45 it creates exactly one Heart Rate alert with severity warning;
for a reading with heartRate = 105 it creates exactly one Heart Rate alert
with severity warning. -/
theorem C1_heart_rate_thresholds (b : VitalsBody) :
    (∀ hr : ℚ, b.heartRate = some hr → 60 ≤ hr → hr ≤ 100 →
      countType (classify b) AlertType.heartRate = 0)
    ∧ (b.heartRate = some 45 →
        (classify b).filter (fun a => a.type == AlertType.heartRate) =
          [{ type := AlertType.heartRate, severity := Severity.warning, value := 45,
             message := "Heart rate below normal range" }])
    ∧ (b.heartRate = some 105 →
        (classify b).filter (fun a => a.type == AlertType.heartRate) =
          [{ type := AlertType.heartRate, severity := Severity.warning, value := 105,
             message := "Heart rate above normal range" }]) := by
  refine ⟨?_, ?_, ?_⟩
  · intro hr hb h60 h100
    unfold countType
    rw [classify_filter_hr, hb]
    have hneg : ¬(hr ≠ 0 ∧ (hr < 60 ∨ 100 < hr)) := by
      rintro ⟨-, h | h⟩ <;> linarith
    simp [hrAlerts, hneg]
  · intro hb
    rw [classify_filter_hr, hb]
    norm_num [hrAlerts]
    rfl
  · intro hb
    rw [classify_filter_hr, hb]
    norm_num [hrAlerts]
    rfl

/-- C1, witness: the amended theorem applied at concrete readings with
heartRate 72, 45 and 105. -/
theorem C1_heart_rate_thresholds_check :
    countType (classify { heartRate := some 72 }) AlertType.heartRate = 0
    ∧ (classify { heartRate := some 45 }).filter
        (fun a => a.type == AlertType.heartRate) =
        [{ type := AlertType.heartRate, severity := Severity.warning, value := 45,
           message := "Heart rate below normal range" }]
    ∧ (classify { heartRate := some 105 }).filter
        (fun a => a.type == AlertType.heartRate) =
        [{ type := AlertType.heartRate, severity := Severity.warning, value := 105,
           message := "Heart rate above normal range" }] :=
  ⟨(C1_heart_rate_thresholds { heartRate := some 72 }).1 72 rfl (by decide) (by decide),
   (C1_heart_rate_thresholds { heartRate := some 45 }).2.1 rfl,
   (C1_heart_rate_thresholds { heartRate := some 105 }).2.2 rfl⟩

/-! Claim C2. -/

/-- C2, counterexample: a reading whose bloodPressure is present and out of
the normal range (here 200/120) produces no alert at all — in particular no
warning-severity Blood Pressure alert — because the ingestion path has no
blood-pressure check. -/
theorem C2_out_of_range_bp_no_alert :
    classify { bloodPressure := some (200, 120) } = []
    ∧ specBPInBand (200, 120) = false := by
  decide

/-- C2 (amended): ingestion never creates a Blood Pressure alert of any
severity — the alert-derivation block checks only heart rate, oxygen level
and temperature, so an out-of-range blood pressure yields no alert (and, as
the claim's second half states, no critical BP alert is ever created). -/
theorem C2_no_bp_alert (b : VitalsBody) :
    countType (classify b) AlertType.bloodPressure = 0 := by
  unfold countType
  rw [classify_filter_bp]
  rfl

/-! Claim C3. -/

/-- C3, counterexample: with the unrecognized period "alltime" and current
instant 1000, a stored reading with timestamp 5 is filtered out — the
analytics result does not include every stored reading, contradicting the
claim that no time filtering is applied. -/
theorem C3_old_reading_excluded :
    filterVitals (cutoffDate 1000 0 0 "alltime") [oldReading] = []
    ∧ [oldReading] ≠ ([] : List Reading) := by
  constructor
  · rfl
  · simp

/-- C3 (amended): for every period value outside {7days, 30days, 3months,
1year}, the analytics endpoints return a result rather than an error, but the
cutoff stays at the current instant, so a stored reading or alert is included
exactly when its timestamp is at or after now — time filtering is still
applied, degenerating to a near-empty window instead of including everything. -/
theorem C3_unknown_period_now_cutoff (now sub3 sub1 : ℤ) (period : String)
    (h : period ∉ (["7days", "30days", "3months", "1year"] : List String)) :
    cutoffDate now sub3 sub1 period = now
    ∧ (∀ (vitals : List Reading) (v : Reading),
        v ∈ filterVitals (cutoffDate now sub3 sub1 period) vitals ↔
          v ∈ vitals ∧ now ≤ v.timestamp)
    ∧ (∀ (alerts : List AlertRec) (a : AlertRec),
        a ∈ filterAlertRecs (cutoffDate now sub3 sub1 period) alerts ↔
          a ∈ alerts ∧ now ≤ a.timestamp) := by
  simp only [List.mem_cons, List.not_mem_nil, or_false, not_or] at h
  obtain ⟨h7, h30, h3m, h1y⟩ := h
  have hc : cutoffDate now sub3 sub1 period = now := by
    simp [cutoffDate, h7, h30, h3m, h1y]
  refine ⟨hc, ?_, ?_⟩
  · intro vitals v
    rw [hc]
    simp [filterVitals, List.mem_filter]
  · intro alerts a
    rw [hc]
    simp [filterAlertRecs, List.mem_filter]

/-- C3, witness: the amended theorem at the unrecognized period "alltime" and
current instant 1000, instantiated on a one-reading store. -/
theorem C3_unknown_period_now_cutoff_check :
    cutoffDate 1000 0 0 "alltime" = 1000
    ∧ (oldReading ∈ filterVitals (cutoffDate 1000 0 0 "alltime") [oldReading] ↔
        oldReading ∈ [oldReading] ∧ (1000 : ℤ) ≤ oldReading.timestamp) :=
  ⟨(C3_unknown_period_now_cutoff 1000 0 0 "alltime" (by decide)).1,
   (C3_unknown_period_now_cutoff 1000 0 0 "alltime" (by decide)).2.1
     [oldReading] oldReading⟩

/-! Claim C4. -/

/-- C4, counterexample: a reading whose only vital is the out-of-range blood
pressure 200/120 is counted by the code's normalReadings (which never looks
at blood pressure), while the claim's count — requiring every present vital
field including blood pressure to be in band — would exclude it. -/
theorem C4_bp_not_counted :
    normalReadings [bpOnlyReading] = 1
    ∧ specNormalReadings [bpOnlyReading] = 0 := by
  decide

/-- C4 (amended): for every filtered set of readings, normalReadings equals
the count of readings in which every present heart-rate, oxygen-level and
temperature value that is nonzero lies within its normal band; an absent (or
zero, hence falsy) field counts as normal, and blood pressure is not
considered at all. -/
theorem C4_normal_readings_ignores_bp (vitals : List Reading) :
    normalReadings vitals = (vitals.filter amendedIsNormal).length := by
  unfold normalReadings
  congr 1
  apply List.filter_congr
  intro v _
  unfold isNormalReading amendedIsNormal
  rw [hrNormal_eq_amended, o2Normal_eq_amended, tempNormal_eq_amended]

/-! Claim C5. -/

/-- C5: for every set of stored readings (each produced by ingestion, which
stores `field || null` — so a present stored field is never 0), totalReadings
equals the count of readings, and avgHeartRate (resp. avgOxygenLevel) equals
the arithmetic mean over exactly the readings that have that field present,
rounded to the nearest integer, 0 when no reading has the field; in
particular, for stored readings with heart rates 60, 100 and absent,
avgHeartRate = 80 and totalReadings = 3. -/
theorem C5_aggregate_stats (vitals : List Reading)
    (hprov : ∀ v ∈ vitals, ∃ i p b ts rb, v = mkVitalReading i p b ts rb) :
    totalReadings vitals = vitals.length
    ∧ avgHeartRate vitals = specAvg (fun v => v.heartRate) vitals
    ∧ avgOxygenLevel vitals = specAvg (fun v => v.oxygenLevel) vitals
    ∧ avgHeartRate exampleReadings = 80
    ∧ totalReadings exampleReadings = 3 := by
  refine ⟨rfl, ?_, ?_, ?_, rfl⟩
  · have hfil : hrTruthyReadings vitals = specPresent (fun v => v.heartRate) vitals := by
      unfold hrTruthyReadings specPresent
      apply List.filter_congr
      intro v hv
      obtain ⟨i, p, b, ts, rb, rfl⟩ := hprov v hv
      exact truthy_orNull b.heartRate
    unfold avgHeartRate specAvg
    rw [hfil]
  · have hfil : o2TruthyReadings vitals = specPresent (fun v => v.oxygenLevel) vitals := by
      unfold o2TruthyReadings specPresent
      apply List.filter_congr
      intro v hv
      obtain ⟨i, p, b, ts, rb, rfl⟩ := hprov v hv
      exact truthy_orNull b.oxygenLevel
    unfold avgOxygenLevel specAvg
    rw [hfil]
  · have h60 : ((60 : ℚ) != 0) = true := by decide
    have h100 : ((100 : ℚ) != 0) = true := by decide
    norm_num [avgHeartRate, hrTruthyReadings, exampleReadings, mkVitalReading, orNull,
      truthy, jsRound, List.filter, h60, h100]

/-- C5, witness: the theorem applied to the three concrete ingestion-produced
readings with heart rates 60, 100 and absent. -/
theorem C5_aggregate_stats_check :
    totalReadings exampleReadings = exampleReadings.length
    ∧ avgHeartRate exampleReadings = specAvg (fun v => v.heartRate) exampleReadings
    ∧ avgOxygenLevel exampleReadings = specAvg (fun v => v.oxygenLevel) exampleReadings
    ∧ avgHeartRate exampleReadings = 80
    ∧ totalReadings exampleReadings = 3 :=
  C5_aggregate_stats exampleReadings (by
    intro v hv
    simp only [exampleReadings, List.mem_cons, List.not_mem_nil, or_false] at hv
    rcases hv with rfl | rfl | rfl
    · exact ⟨"v1", "p1", { heartRate := some 60 }, 10, "d1", rfl⟩
    · exact ⟨"v2", "p1", { heartRate := some 100 }, 20, "d1", rfl⟩
    · exact ⟨"v3", "p1", { oxygenLevel := some 97 }, 30, "d1", rfl⟩)

/-! Claim C6. -/

/-- C6, counterexample: a heart rate of 0 satisfies the claim's critical
predicate (it is below 40), yet ingestion emits no alert at all for it — the
truthiness guard `if (heartRate && ...)` skips the check — so no
critical-severity Heart Rate alert is created, contradicting the claim that
every critical-predicate value yields exactly one critical alert. -/
theorem C6_zero_satisfies_critical_no_alert :
    ((0 : ℚ) < 40 ∨ 120 < (0 : ℚ))
    ∧ classify { heartRate := some 0 } = [] := by
  decide

/-- C6 (amended): for every reading and each numeric vital whose present
(truthy, i.e. nonzero — a zero value is falsy and skips the check entirely)
value satisfies the critical predicate, ingestion emits exactly one alert for
that vital, its severity is critical, and no warning-severity alert for the
same vital is emitted; blood pressure has no critical predicate in the
ingestion path. In particular a temperature of 39 yields exactly one
temperature alert, with severity critical. -/
theorem C6_critical_precedence (b : VitalsBody) :
    (∀ v : ℚ, b.heartRate = some v → v ≠ 0 → v < 40 ∨ 120 < v →
      countType (classify b) AlertType.heartRate = 1
      ∧ ∀ a ∈ classify b, a.type = AlertType.heartRate → a.severity = Severity.critical)
    ∧ (∀ v : ℚ, b.oxygenLevel = some v → v ≠ 0 → v < 90 →
      countType (classify b) AlertType.oxygenLevel = 1
      ∧ ∀ a ∈ classify b, a.type = AlertType.oxygenLevel → a.severity = Severity.critical)
    ∧ (∀ v : ℚ, b.temperature = some v → v ≠ 0 → v < 35 ∨ 38.5 < v →
      countType (classify b) AlertType.temperature = 1
      ∧ ∀ a ∈ classify b, a.type = AlertType.temperature → a.severity = Severity.critical)
    ∧ (b.temperature = some 39 →
      (classify b).filter (fun a => a.type == AlertType.temperature) =
        [{ type := AlertType.temperature, severity := Severity.critical, value := 39,
           message := "Body temperature above normal range" }]) := by
  refine ⟨?_, ?_, ?_, ?_⟩
  · intro v hb hv0 hcrit
    have hdisj : v < 60 ∨ 100 < v := by
      rcases hcrit with h | h
      · exact Or.inl (by linarith)
      · exact Or.inr (by linarith)
    have hguard : v ≠ 0 ∧ (v < 60 ∨ 100 < v) := ⟨hv0, hdisj⟩
    have hsingle : hrAlerts b.heartRate =
        [{ type := AlertType.heartRate
           severity := if v < 40 ∨ 120 < v then Severity.critical else Severity.warning
           value := v
           message := "Heart rate " ++ (if v < 60 then "below" else "above") ++
             " normal range" }] := by
      rw [hb]
      simp only [hrAlerts]
      rw [if_pos hguard]
    constructor
    · unfold countType
      rw [classify_filter_hr, hsingle]
      rfl
    · intro a ha hat
      have hmem : a ∈ (classify b).filter (fun x => x.type == AlertType.heartRate) :=
        List.mem_filter.mpr ⟨ha, by simp [hat]⟩
      rw [classify_filter_hr, hsingle] at hmem
      simp only [List.mem_singleton] at hmem
      subst hmem
      show (if v < 40 ∨ 120 < v then Severity.critical else Severity.warning) =
        Severity.critical
      rw [if_pos hcrit]
  · intro v hb hv0 hcrit
    have hguard : v ≠ 0 ∧ v < 95 := ⟨hv0, by linarith⟩
    have hsingle : o2Alerts b.oxygenLevel =
        [{ type := AlertType.oxygenLevel
           severity := if v < 90 then Severity.critical else Severity.warning
           value := v
           message := "Oxygen saturation below normal (" ++ toString v ++ "%)" }] := by
      rw [hb]
      simp only [o2Alerts]
      rw [if_pos hguard]
    constructor
    · unfold countType
      rw [classify_filter_o2, hsingle]
      rfl
    · intro a ha hat
      have hmem : a ∈ (classify b).filter (fun x => x.type == AlertType.oxygenLevel) :=
        List.mem_filter.mpr ⟨ha, by simp [hat]⟩
      rw [classify_filter_o2, hsingle] at hmem
      simp only [List.mem_singleton] at hmem
      subst hmem
      show (if v < 90 then Severity.critical else Severity.warning) = Severity.critical
      rw [if_pos hcrit]
  · intro v hb hv0 hcrit
    have hdisj : v < 36.1 ∨ 37.2 < v := by
      rcases hcrit with h | h
      · exact Or.inl (by linarith [show (35:ℚ) < 36.1 by norm_num])
      · exact Or.inr (by linarith [show (37.2:ℚ) < 38.5 by norm_num])
    have hguard : v ≠ 0 ∧ (v < 36.1 ∨ 37.2 < v) := ⟨hv0, hdisj⟩
    have hsingle : tempAlerts b.temperature =
        [{ type := AlertType.temperature
           severity := if v < 35 ∨ 38.5 < v then Severity.critical else Severity.warning
           value := v
           message := "Body temperature " ++ (if v < 36.1 then "below" else "above") ++
             " normal range" }] := by
      rw [hb]
      simp only [tempAlerts]
      rw [if_pos hguard]
    constructor
    · unfold countType
      rw [classify_filter_temp, hsingle]
      rfl
    · intro a ha hat
      have hmem : a ∈ (classify b).filter (fun x => x.type == AlertType.temperature) :=
        List.mem_filter.mpr ⟨ha, by simp [hat]⟩
      rw [classify_filter_temp, hsingle] at hmem
      simp only [List.mem_singleton] at hmem
      subst hmem
      show (if v < 35 ∨ 38.5 < v then Severity.critical else Severity.warning) =
        Severity.critical
      rw [if_pos hcrit]
  · intro hb
    rw [classify_filter_temp, hb]
    simp only [tempAlerts]
    rw [if_pos (by norm_num : (39:ℚ) ≠ 0 ∧ ((39:ℚ) < 36.1 ∨ (37.2:ℚ) < 39)),
      if_pos (by norm_num : (39:ℚ) < 35 ∨ (38.5:ℚ) < 39),
      if_neg (by norm_num : ¬((39:ℚ) < 36.1))]
    rfl

/-- C6, witness: the theorem at a reading with heart rate 130 (critical),
oxygen level 85 (critical) and temperature 34 (critical), and at a reading
with temperature 39. -/
theorem C6_critical_precedence_check :
    countType (classify bC6) AlertType.heartRate = 1
    ∧ countType (classify bC6) AlertType.oxygenLevel = 1
    ∧ countType (classify bC6) AlertType.temperature = 1
    ∧ (classify { temperature := some 39 }).filter
        (fun a => a.type == AlertType.temperature) =
        [{ type := AlertType.temperature, severity := Severity.critical, value := 39,
           message := "Body temperature above normal range" }] :=
  ⟨((C6_critical_precedence bC6).1 130 rfl (by decide) (Or.inr (by decide))).1,
   ((C6_critical_precedence bC6).2.1 85 rfl (by decide) (by decide)).1,
   ((C6_critical_precedence bC6).2.2.1 34 rfl (by decide) (Or.inl (by decide))).1,
   (C6_critical_precedence { temperature := some 39 }).2.2.2 rfl⟩

/-! Claim C7. -/

/-- C7: every violated rule produces exactly one alert — the number of alerts
is the sum of one indicator per violated vital check; a reading with zero
violated checks yields no alerts; and a reading with heartRate = 45 and
oxygenLevel = 89 yields exactly two alerts, one typed Heart Rate and one
typed Oxygen Level, never a combined alert. -/
theorem C7_one_alert_per_rule (b : VitalsBody) :
    (classify b).length =
      ((if hrViolated b.heartRate then 1 else 0) +
        (if o2Violated b.oxygenLevel then 1 else 0) +
        (if tempViolated b.temperature then 1 else 0))
    ∧ (hrViolated b.heartRate = false → o2Violated b.oxygenLevel = false →
        tempViolated b.temperature = false → classify b = [])
    ∧ (b.heartRate = some 45 → b.oxygenLevel = some 89 → b.temperature = none →
        (classify b).length = 2
        ∧ (classify b).map (fun a => a.type) =
            [AlertType.heartRate, AlertType.oxygenLevel]) := by
  have hlen : (classify b).length =
      ((if hrViolated b.heartRate then 1 else 0) +
        (if o2Violated b.oxygenLevel then 1 else 0) +
        (if tempViolated b.temperature then 1 else 0)) := by
    unfold classify
    rw [List.length_append, List.length_append, hrAlerts_length, o2Alerts_length,
      tempAlerts_length]
  refine ⟨hlen, ?_, ?_⟩
  · intro h1 h2 h3
    have h0 : (classify b).length = 0 := by
      rw [hlen, h1, h2, h3]
      rfl
    exact List.length_eq_zero.mp h0
  · intro h1 h2 h3
    unfold classify
    rw [h1, h2, h3]
    exact ⟨by decide, by decide⟩

/-- C7, witness: the theorem at a reading with heartRate = 45 and
oxygenLevel = 89, and at a reading with no vitals at all. -/
theorem C7_one_alert_per_rule_check :
    (classify { heartRate := some 45, oxygenLevel := some 89 }).length = 2
    ∧ (classify { heartRate := some 45, oxygenLevel := some 89 }).map
        (fun a => a.type) = [AlertType.heartRate, AlertType.oxygenLevel]
    ∧ classify {} = [] :=
  ⟨((C7_one_alert_per_rule { heartRate := some 45, oxygenLevel := some 89 }).2.2
      rfl rfl rfl).1,
   ((C7_one_alert_per_rule { heartRate := some 45, oxygenLevel := some 89 }).2.2
      rfl rfl rfl).2,
   (C7_one_alert_per_rule {}).2.1 rfl rfl rfl⟩

/-! Claim C8. -/

/-- C8: acknowledge fails with NotFound ("Alert not found", 404) exactly when
the alertId does not resolve to a stored entity; when the alert exists it
returns the spread-updated alert with acknowledged = true, and acknowledging
the same alert a second time is idempotent in state (acknowledged = true both
times) but overwrites acknowledgedBy and acknowledgedAt with the second
caller's identity and time. -/
theorem C8_acknowledge_contract (s : Store) (alertId actor1 t1 actor2 t2 : String) :
    (acknowledge s alertId actor1 t1 = Except.error "Alert not found" ↔
      s alertId = none)
    ∧ (∀ alert, s alertId = some alert →
        acknowledge s alertId actor1 t1 =
          Except.ok (withAck alert actor1 t1, kvSet s alertId (withAck alert actor1 t1))
        ∧ getField (withAck alert actor1 t1) "acknowledged" = some (JVal.boolean true)
        ∧ getField (withAck alert actor1 t1) "acknowledgedBy" = some (JVal.str actor1)
        ∧ getField (withAck alert actor1 t1) "acknowledgedAt" = some (JVal.str t1)
        ∧ acknowledge (kvSet s alertId (withAck alert actor1 t1)) alertId actor2 t2 =
            Except.ok (withAck (withAck alert actor1 t1) actor2 t2,
              kvSet (kvSet s alertId (withAck alert actor1 t1)) alertId
                (withAck (withAck alert actor1 t1) actor2 t2))
        ∧ getField (withAck (withAck alert actor1 t1) actor2 t2) "acknowledged" =
            some (JVal.boolean true)
        ∧ getField (withAck (withAck alert actor1 t1) actor2 t2) "acknowledgedBy" =
            some (JVal.str actor2)
        ∧ getField (withAck (withAck alert actor1 t1) actor2 t2) "acknowledgedAt" =
            some (JVal.str t2)) := by
  constructor
  · constructor
    · intro h
      cases hs : s alertId with
      | none => rfl
      | some a =>
        exfalso
        unfold acknowledge at h
        rw [hs] at h
        simp at h
    · intro h
      unfold acknowledge
      rw [h]
  · intro alert h
    have hack1 : acknowledge s alertId actor1 t1 =
        Except.ok (withAck alert actor1 t1,
          kvSet s alertId (withAck alert actor1 t1)) := by
      unfold acknowledge
      rw [h]
    have hs2 : kvSet s alertId (withAck alert actor1 t1) alertId =
        some (withAck alert actor1 t1) := by
      simp [kvSet]
    have hack2 : acknowledge (kvSet s alertId (withAck alert actor1 t1)) alertId
        actor2 t2 =
        Except.ok (withAck (withAck alert actor1 t1) actor2 t2,
          kvSet (kvSet s alertId (withAck alert actor1 t1)) alertId
            (withAck (withAck alert actor1 t1) actor2 t2)) := by
      unfold acknowledge
      rw [hs2]
    exact ⟨hack1, getField_withAck_acknowledged alert actor1 t1,
      getField_withAck_by alert actor1 t1, getField_withAck_at alert actor1 t1,
      hack2, getField_withAck_acknowledged (withAck alert actor1 t1) actor2 t2,
      getField_withAck_by (withAck alert actor1 t1) actor2 t2,
      getField_withAck_at (withAck alert actor1 t1) actor2 t2⟩

/-- C8, witness: the contract applied to a store with no alerts (NotFound
case) and to a store holding one concrete alert, acknowledged twice by
different actors. -/
theorem C8_acknowledge_contract_check :
    acknowledge (fun _ => none) "missing" "u1" "t1" = Except.error "Alert not found"
    ∧ acknowledge alertStore "alert:p1:100-Heart Rate" "u1" "t1" =
        Except.ok (withAck alertObj "u1" "t1",
          kvSet alertStore "alert:p1:100-Heart Rate" (withAck alertObj "u1" "t1"))
    ∧ getField (withAck alertObj "u1" "t1") "acknowledged" = some (JVal.boolean true)
    ∧ getField (withAck (withAck alertObj "u1" "t1") "u2" "t2") "acknowledged" =
        some (JVal.boolean true)
    ∧ getField (withAck (withAck alertObj "u1" "t1") "u2" "t2") "acknowledgedBy" =
        some (JVal.str "u2")
    ∧ getField (withAck (withAck alertObj "u1" "t1") "u2" "t2") "acknowledgedAt" =
        some (JVal.str "t2") := by
  have c8 := (C8_acknowledge_contract alertStore "alert:p1:100-Heart Rate" "u1" "t1"
    "u2" "t2").2 alertObj rfl
  exact ⟨(C8_acknowledge_contract (fun _ => none) "missing" "u1" "t1" "u2" "t2").1.mpr
      rfl,
    c8.1, c8.2.1, c8.2.2.2.2.2.1, c8.2.2.2.2.2.2.1, c8.2.2.2.2.2.2.2⟩

/-! Claim C9. -/

/-- C9: a vital whose value is the number 0 is treated as absent throughout —
ingestion emits no alert for it (the truthiness guard skips the check even
though 0 lies below the critical bounds), the analytics normality predicate
treats the field as normal, and such a reading contributes nothing to
avgHeartRate / avgOxygenLevel. -/
theorem C9_zero_treated_as_absent :
    (∀ b : VitalsBody, b.heartRate = some 0 →
      countType (classify b) AlertType.heartRate = 0)
    ∧ (∀ b : VitalsBody, b.oxygenLevel = some 0 →
      countType (classify b) AlertType.oxygenLevel = 0)
    ∧ (∀ b : VitalsBody, b.temperature = some 0 →
      countType (classify b) AlertType.temperature = 0)
    ∧ (∀ v : Reading, v.heartRate = some 0 → hrNormal v = true)
    ∧ (∀ v : Reading, v.oxygenLevel = some 0 → o2Normal v = true)
    ∧ (∀ v : Reading, v.temperature = some 0 → tempNormal v = true)
    ∧ (∀ v : Reading, v.heartRate = some 0 →
      isNormalReading v = (o2Normal v && tempNormal v))
    ∧ (∀ (v : Reading) (vitals : List Reading), v.heartRate = some 0 →
      avgHeartRate (v :: vitals) = avgHeartRate vitals)
    ∧ (∀ (v : Reading) (vitals : List Reading), v.oxygenLevel = some 0 →
      avgOxygenLevel (v :: vitals) = avgOxygenLevel vitals) := by
  have hhr : ∀ v : Reading, v.heartRate = some 0 → hrNormal v = true := by
    intro v hv
    unfold hrNormal
    rw [hv]
    simp
  refine ⟨?_, ?_, ?_, hhr, ?_, ?_, ?_, ?_, ?_⟩
  · intro b hb
    unfold countType
    rw [classify_filter_hr, hb]
    simp [hrAlerts]
  · intro b hb
    unfold countType
    rw [classify_filter_o2, hb]
    simp [o2Alerts]
  · intro b hb
    unfold countType
    rw [classify_filter_temp, hb]
    simp [tempAlerts]
  · intro v hv
    unfold o2Normal
    rw [hv]
    simp
  · intro v hv
    unfold tempNormal
    rw [hv]
    simp
  · intro v hv
    unfold isNormalReading
    rw [hhr v hv, Bool.true_and]
  · intro v vitals hv
    unfold avgHeartRate hrTruthyReadings
    rw [List.filter_cons_of_neg (by simp [truthy, hv])]
  · intro v vitals hv
    unfold avgOxygenLevel o2TruthyReadings
    rw [List.filter_cons_of_neg (by simp [truthy, hv])]

/-- C9, witness: the theorem at concrete readings carrying a 0 heart rate,
oxygen level or temperature. -/
theorem C9_zero_treated_as_absent_check :
    countType (classify { heartRate := some 0 }) AlertType.heartRate = 0
    ∧ countType (classify { oxygenLevel := some 0 }) AlertType.oxygenLevel = 0
    ∧ countType (classify { temperature := some 0 }) AlertType.temperature = 0
    ∧ hrNormal zeroHrReading = true
    ∧ o2Normal zeroO2Reading = true
    ∧ tempNormal zeroTempReading = true
    ∧ isNormalReading zeroHrReading = (o2Normal zeroHrReading && tempNormal zeroHrReading)
    ∧ avgHeartRate [zeroHrReading] = avgHeartRate []
    ∧ avgOxygenLevel [zeroO2Reading] = avgOxygenLevel [] :=
  ⟨C9_zero_treated_as_absent.1 { heartRate := some 0 } rfl,
   C9_zero_treated_as_absent.2.1 { oxygenLevel := some 0 } rfl,
   C9_zero_treated_as_absent.2.2.1 { temperature := some 0 } rfl,
   C9_zero_treated_as_absent.2.2.2.1 zeroHrReading rfl,
   C9_zero_treated_as_absent.2.2.2.2.1 zeroO2Reading rfl,
   C9_zero_treated_as_absent.2.2.2.2.2.1 zeroTempReading rfl,
   C9_zero_treated_as_absent.2.2.2.2.2.2.1 zeroHrReading rfl,
   C9_zero_treated_as_absent.2.2.2.2.2.2.2.1 zeroHrReading [] rfl,
   C9_zero_treated_as_absent.2.2.2.2.2.2.2.2 zeroO2Reading [] rfl⟩

/-! Claim C10. -/

/-- C10: the acknowledge NotFound guard tests only key existence, not entity
kind — for every stored entity whose key is passed as alertId (a profile
included), acknowledge succeeds, returns the entity with acknowledged = true,
acknowledgedBy and acknowledgedAt added (all other fields preserved), and
overwrites the stored entity with that object. -/
theorem C10_acknowledge_any_entity (s : Store) (key actor t : String) (obj : JObj)
    (h : s key = some obj) :
    acknowledge s key actor t =
      Except.ok (withAck obj actor t, kvSet s key (withAck obj actor t))
    ∧ getField (withAck obj actor t) "acknowledged" = some (JVal.boolean true)
    ∧ getField (withAck obj actor t) "acknowledgedBy" = some (JVal.str actor)
    ∧ getField (withAck obj actor t) "acknowledgedAt" = some (JVal.str t)
    ∧ kvSet s key (withAck obj actor t) key = some (withAck obj actor t)
    ∧ (∀ f v, getField obj f = some v → f ≠ "acknowledged" → f ≠ "acknowledgedBy" →
        f ≠ "acknowledgedAt" → getField (withAck obj actor t) f = some v) := by
  refine ⟨?_, getField_withAck_acknowledged obj actor t, getField_withAck_by obj actor t,
    getField_withAck_at obj actor t, by simp [kvSet], ?_⟩
  · unfold acknowledge
    rw [h]
  · intro f v hf h1 h2 h3
    rw [getField_withAck_other obj actor t h1 h2 h3, hf]

/-- C10, witness: acknowledging the key of a stored profile — a non-alert
entity — succeeds and returns the profile with acknowledgement fields added
and its role field intact. -/
theorem C10_acknowledge_any_entity_check :
    acknowledge profileStore "profile:p1" "doc1" "2025-06-01" =
      Except.ok (withAck profileObj "doc1" "2025-06-01",
        kvSet profileStore "profile:p1" (withAck profileObj "doc1" "2025-06-01"))
    ∧ getField (withAck profileObj "doc1" "2025-06-01") "acknowledged" =
        some (JVal.boolean true)
    ∧ getField (withAck profileObj "doc1" "2025-06-01") "acknowledgedBy" =
        some (JVal.str "doc1")
    ∧ getField (withAck profileObj "doc1" "2025-06-01") "acknowledgedAt" =
        some (JVal.str "2025-06-01")
    ∧ getField (withAck profileObj "doc1" "2025-06-01") "role" =
        some (JVal.str "patient") := by
  have c10 := C10_acknowledge_any_entity profileStore "profile:p1" "doc1" "2025-06-01"
    profileObj rfl
  exact ⟨c10.1, c10.2.1, c10.2.2.1, c10.2.2.2.1,
    c10.2.2.2.2.2 "role" (JVal.str "patient") rfl (by decide) (by decide) (by decide)⟩

end PatientMonitoring
